import Mathlib

/-!
Verification of the mass-spring chain simulation (Feder-Masse-Kette.py).

The program builds a horizontal chain of `N_MASSES` point masses connected by
damped springs between a kinematic left anchor and a static right wall anchor,
and runs a pygame/pymunk loop that, at a configurable time, lifts the left
anchor by a configurable amount.  All numeric quantities are embedded as exact
rationals.  Pymunk's `Space.step` is an external C library call; it is modelled
here with its documented kinematic/static semantics fixed and the update of the
dynamic bodies kept as an arbitrary parameter, so that every theorem about
anchors and controller state holds for every possible solver behaviour.
-/

namespace FederMasseKette

/-- `N_MASSES = 150`, the number of masses in the chain. -/
def N_MASSES : Nat := 150

/-- `MASS_KG = 0.05`, the mass of each body in kilograms. -/
def MASS_KG : ℚ := 5 / 100

/-- `L0_M = 0.1`, the relaxed (rest) spring length in meters. -/
def L0_M : ℚ := 1 / 10

/-- `LV_M = 0.12`, the pre-tension spacing (initial distance per segment) in meters. -/
def LV_M : ℚ := 12 / 100

/-- `PIXELS_PER_METER = 50.0`, the meter-to-pixel scale. -/
def PIXELS_PER_METER : ℚ := 50

/-- `SPRING_STIFFNESS = 1200.0`. -/
def SPRING_STIFFNESS : ℚ := 1200

/-- `SPRING_DAMPING = 8.0`. -/
def SPRING_DAMPING : ℚ := 8

/-- `SPACE_DAMPING = 1.0`: the initial global velocity damping factor. -/
def SPACE_DAMPING : ℚ := 1

/-- `IMPULSE_TIME_S = 0.25`, the default impulse trigger time in seconds. -/
def IMPULSE_TIME_S : ℚ := 25 / 100

/-- `ANCHOR_LIFT_M = 0.5`, the default upward jump of the left anchor in meters. -/
def ANCHOR_LIFT_M : ℚ := 5 / 10

/-- Window height `HEIGHT = 600` (the width plays no role in the physics). -/
def HEIGHT : ℚ := 600

/-- `MASS_RADIUS_PX = 2`, the drawing radius of a mass (used for the moment). -/
def MASS_RADIUS_PX : ℚ := 2

/-- `m_to_px(x_m) = x_m * PIXELS_PER_METER`. -/
def m_to_px (x_m : ℚ) : ℚ := x_m * PIXELS_PER_METER

/-- The two gravity presets of `__init__`: `(0, 0)` and `(0, 9.81 * PIXELS_PER_METER)`. -/
def gravity_presets : List (ℚ × ℚ) :=
  [(0, 0), (0, (981 / 100) * PIXELS_PER_METER)]

/-- The fixed physics time step `self.dt = 1.0 / 120.0`, set once in `__init__`. -/
def dt : ℚ := 1 / 120

/-- `self.physics_steps_per_frame = 2`, set once in `__init__`. -/
def physics_steps_per_frame : Nat := 2

/-- A pymunk endpoint of a spring: the kinematic left anchor body, one of the
dynamic mass bodies (by chain index), or the space's static body used as the
right wall anchor. -/
inductive Endpoint where
  | leftAnchor : Endpoint
  | massBody : Nat → Endpoint
  | wallStatic : Endpoint
deriving DecidableEq, Inhabited

/-- The dynamic state of one mass body: mass, position and velocity in pixels
(`pymunk.Body(MASS_KG, moment)` with `body.position = (x, y)`). -/
structure BodyState where
  mass : ℚ
  position : ℚ × ℚ
  velocity : ℚ × ℚ
deriving DecidableEq, Inhabited

/-- One `pymunk.DampedSpring(a, b, anchor_a, anchor_b, rest_length, stiffness,
damping)`: the two endpoints, the local anchor offsets, and the constants. -/
structure Spring where
  a : Endpoint
  b : Endpoint
  anchor_a : ℚ × ℚ
  anchor_b : ℚ × ℚ
  rest_length : ℚ
  stiffness : ℚ
  damping : ℚ
deriving DecidableEq, Inhabited

/-- The mutable state of a `MassSpringChain` instance: the runtime parameters,
the anchors, the chain, and the impulse bookkeeping. -/
structure SimState where
  gravity_index : Nat
  space_gravity : ℚ × ℚ
  damping : ℚ
  space_damping : ℚ
  impulse_time_s : ℚ
  anchor_lift_m : ℚ
  left_anchor_pos : ℚ × ℚ
  left_anchor_vel : ℚ × ℚ
  left_anchor_base : ℚ × ℚ
  right_anchor_pos : ℚ × ℚ
  bodies : List BodyState
  springs : List Spring
  time_accum : ℚ
  impulse_applied : Bool
  running : Bool
deriving DecidableEq, Inhabited

/-- `rest_px = m_to_px(L0_M)` in `_build_chain`. -/
def rest_px : ℚ := m_to_px L0_M

/-- `span_px = m_to_px(LV_M)` in `_build_chain`. -/
def span_px : ℚ := m_to_px LV_M

/-- `start_x = 100.0` in `_build_chain`. -/
def start_x : ℚ := 100

/-- `baseline_y = HEIGHT * 0.5` in `_build_chain`. -/
def baseline_y : ℚ := HEIGHT * (5 / 10)

/-- `wall_x = start_x + (N_MASSES + 1) * span_px` in `_build_chain`. -/
def wall_x : ℚ := start_x + ((N_MASSES : ℚ) + 1) * span_px

/-- The mass created at loop index `i` of `_build_chain`:
position `(start_x + (i + 1) * span_px, baseline_y)`, velocity zero. -/
def mkMass (i : Nat) : BodyState :=
  { mass := MASS_KG
    position := (start_x + ((i : ℚ) + 1) * span_px, baseline_y)
    velocity := (0, 0) }

/-- The list `self.bodies` built by the `for i in range(N_MASSES)` loop. -/
def chainBodies : List BodyState := (List.range N_MASSES).map mkMass

/-- The first spring `s0`: left anchor to `bodies[0]`, zero local anchors. -/
def firstSpring : Spring :=
  { a := Endpoint.leftAnchor
    b := Endpoint.massBody 0
    anchor_a := (0, 0)
    anchor_b := (0, 0)
    rest_length := rest_px
    stiffness := SPRING_STIFFNESS
    damping := SPRING_DAMPING }

/-- The spring created at loop index `i` (for `i in range(1, N_MASSES)`):
`bodies[i-1]` to `bodies[i]`, zero local anchors. -/
def middleSpring (i : Nat) : Spring :=
  { a := Endpoint.massBody (i - 1)
    b := Endpoint.massBody i
    anchor_a := (0, 0)
    anchor_b := (0, 0)
    rest_length := rest_px
    stiffness := SPRING_STIFFNESS
    damping := SPRING_DAMPING }

/-- The last spring `s_last`: `bodies[-1]` to the static body, whose local
anchor on the static side is the world point `right_anchor_pos`. -/
def lastSpring : Spring :=
  { a := Endpoint.massBody (N_MASSES - 1)
    b := Endpoint.wallStatic
    anchor_a := (0, 0)
    anchor_b := (wall_x, baseline_y)
    rest_length := rest_px
    stiffness := SPRING_STIFFNESS
    damping := SPRING_DAMPING }

/-- The list `self.springs` built by `_build_chain`: the first spring, the
springs between adjacent masses for `i in range(1, N_MASSES)`, then the last. -/
def chainSprings : List Spring :=
  (firstSpring :: (List.range (N_MASSES - 1)).map (fun j => middleSpring (j + 1)))
    ++ [lastSpring]

/-- `_build_chain`: resets the anchors and rebuilds `self.bodies` and
`self.springs`; the left anchor is a fresh KINEMATIC body (velocity zero) at
`left_anchor_base = (start_x, baseline_y)`; the wall anchor point is
`(wall_x, baseline_y)`. -/
def build_chain (s : SimState) : SimState :=
  { s with
    left_anchor_pos := (start_x, baseline_y)
    left_anchor_vel := (0, 0)
    left_anchor_base := (start_x, baseline_y)
    right_anchor_pos := (wall_x, baseline_y)
    bodies := chainBodies
    springs := chainSprings }

/-- `__init__`: gravity preset 0, damping `SPACE_DAMPING`, default impulse
parameters, then `_build_chain()`, then `time_accum = 0.0` and
`impulse_applied = False`. -/
def initState : SimState :=
  build_chain
    { gravity_index := 0
      space_gravity := gravity_presets.getD 0 (0, 0)
      damping := SPACE_DAMPING
      space_damping := SPACE_DAMPING
      impulse_time_s := IMPULSE_TIME_S
      anchor_lift_m := ANCHOR_LIFT_M
      left_anchor_pos := (0, 0)
      left_anchor_vel := (0, 0)
      left_anchor_base := (0, 0)
      right_anchor_pos := (0, 0)
      bodies := []
      springs := []
      time_accum := 0
      impulse_applied := false
      running := true }

/-- `_apply_first_spring_impulse`: moves the left anchor up by
`m_to_px(self.anchor_lift_m)` (screen y decreases) and sets
`impulse_applied = True`. -/
def apply_first_spring_impulse (s : SimState) : SimState :=
  { s with
    left_anchor_pos :=
      (s.left_anchor_pos.1, s.left_anchor_pos.2 - m_to_px s.anchor_lift_m)
    impulse_applied := true }

/-- `_reset_sim`: recreates the space with the currently selected gravity
preset and damping, clears the lists, rebuilds the chain, and zeroes
`time_accum` and `impulse_applied`. -/
def reset_sim (s : SimState) : SimState :=
  let s1 := { s with
    space_gravity := gravity_presets.getD s.gravity_index (0, 0)
    space_damping := s.damping
    bodies := []
    springs := [] }
  let s2 := build_chain s1
  { s2 with time_accum := 0, impulse_applied := false }

/-- The keys handled by `_process_events` (ESC/QUIT sets `running = False`). -/
inductive Key where
  | esc : Key
  | g : Key
  | k1 : Key
  | k2 : Key
  | k3 : Key
  | k4 : Key
  | k5 : Key
  | k6 : Key
  | i : Key
  | r : Key
deriving DecidableEq

/-- One KEYDOWN branch of `_process_events`. -/
def process_key (k : Key) (s : SimState) : SimState :=
  match k with
  | Key.esc => { s with running := false }
  | Key.g =>
      let idx := (s.gravity_index + 1) % gravity_presets.length
      { s with gravity_index := idx, space_gravity := gravity_presets.getD idx (0, 0) }
  | Key.k1 =>
      let d := max 0 (s.damping - 1 / 100)
      { s with damping := d, space_damping := d }
  | Key.k2 =>
      let d := min (999 / 1000) (s.damping + 1 / 100)
      { s with damping := d, space_damping := d }
  | Key.k3 => { s with anchor_lift_m := max 0 (s.anchor_lift_m - 5 / 100) }
  | Key.k4 => { s with anchor_lift_m := min 2 (s.anchor_lift_m + 5 / 100) }
  | Key.k5 => { s with impulse_time_s := max 0 (s.impulse_time_s - 5 / 100) }
  | Key.k6 => { s with impulse_time_s := min 5 (s.impulse_time_s + 5 / 100) }
  | Key.i => if s.impulse_applied = false then apply_first_spring_impulse s else s
  | Key.r => reset_sim s

/-- `_process_events`: handle the frame's key events in order. -/
def process_events (events : List Key) (s : SimState) : SimState :=
  events.foldl (fun st k => process_key k st) s

/-- Modelled from the spec: `pymunk.Space.step(dt)` is a call into the external
pymunk/Chipmunk library, which is not part of this repository.  Per pymunk's
documented semantics and the spec's AnchorPoint invariant, forces act only on
dynamic bodies; a KINEMATIC body is advanced by its own velocity
(`position += velocity * dt`) and a STATIC body never moves.  The update of
the dynamic bodies is the solver's business and is taken here as an arbitrary
function `dyn` of the pre-step state, over which all theorems quantify. -/
def space_step (dyn : SimState → List BodyState) (s : SimState) : SimState :=
  { s with
    bodies := dyn s
    left_anchor_pos :=
      (s.left_anchor_pos.1 + s.left_anchor_vel.1 * dt,
       s.left_anchor_pos.2 + s.left_anchor_vel.2 * dt) }

/-- `n` consecutive `space.step(dt)` calls. -/
def space_steps (dyn : SimState → List BodyState) : Nat → SimState → SimState
  | 0, s => s
  | n + 1, s => space_steps dyn n (space_step dyn s)

/-- One iteration of the `run` loop: process the frame's events, then (while
the impulse has not yet fired) accumulate `dt * physics_steps_per_frame` of
elapsed time and fire the impulse once the accumulator reaches
`impulse_time_s`, then do `physics_steps_per_frame` physics steps. -/
def tick (dyn : SimState → List BodyState) (events : List Key) (s : SimState) :
    SimState :=
  let s1 := process_events events s
  let s2 :=
    if s1.impulse_applied = false then
      let s1' := { s1 with
        time_accum := s1.time_accum + dt * (physics_steps_per_frame : ℚ) }
      if s1'.impulse_time_s ≤ s1'.time_accum then
        apply_first_spring_impulse s1'
      else s1'
    else s1
  space_steps dyn physics_steps_per_frame s2

/-- A trivial stand-in for the external solver, used only to instantiate
universally quantified theorems at a concrete input: it leaves every dynamic
body unchanged. -/
def dynId : SimState → List BodyState := fun s => s.bodies

/-- The states reachable by the program: the freshly constructed state, closed
under run-loop iterations with arbitrary key events and arbitrary solver
behaviour. -/
inductive Reachable : SimState → Prop where
  | init : Reachable initState
  | step : ∀ (dyn : SimState → List BodyState) (events : List Key) (s : SimState),
      Reachable s → Reachable (tick dyn events s)

/-- The world position of a spring endpoint plus its local anchor offset.  The
kinematic left anchor and the dynamic bodies carry their own positions; the
static body sits at the origin, so its world anchor is the offset itself
(which `_build_chain` sets to `right_anchor_pos` for the last spring). -/
def world_anchor (s : SimState) (e : Endpoint) (off : ℚ × ℚ) : ℚ × ℚ :=
  match e with
  | Endpoint.leftAnchor =>
      (s.left_anchor_pos.1 + off.1, s.left_anchor_pos.2 + off.2)
  | Endpoint.massBody i =>
      ((s.bodies.getD i default).position.1 + off.1,
       (s.bodies.getD i default).position.2 + off.2)
  | Endpoint.wallStatic => (off.1, off.2)

/-- The vector from a spring's first world anchor to its second; the spring's
current length is the norm of this vector. -/
def span_vec (s : SimState) (spr : Spring) : ℚ × ℚ :=
  ((world_anchor s spr.b spr.anchor_b).1 - (world_anchor s spr.a spr.anchor_a).1,
   (world_anchor s spr.b spr.anchor_b).2 - (world_anchor s spr.a spr.anchor_a).2)

/-- The controller-state invariant maintained by the run loop: the damping
factor stays in `[0, 1]`, the gravity index selects one of the two presets and
the space's gravity equals the selected preset, the kinematic left anchor
never acquires a velocity, and the lift and trigger parameters stay in their
clamping ranges. -/
def Inv (s : SimState) : Prop :=
  0 ≤ s.damping ∧ s.damping ≤ 1 ∧
  s.gravity_index < 2 ∧
  s.space_gravity = gravity_presets.getD s.gravity_index (0, 0) ∧
  s.left_anchor_vel = (0, 0) ∧
  0 ≤ s.anchor_lift_m ∧ s.anchor_lift_m ≤ 2 ∧
  0 ≤ s.impulse_time_s ∧ s.impulse_time_s ≤ 5

lemma chainBodies_length : chainBodies.length = N_MASSES := by
  simp [chainBodies]

lemma chainSprings_length : chainSprings.length = N_MASSES + 1 := by
  simp [chainSprings, N_MASSES]

lemma chainBodies_getD (i : Nat) (hi : i < N_MASSES) :
    chainBodies.getD i default = mkMass i := by
  simp [chainBodies, List.getD_eq_getElem?_getD, List.getElem?_map,
    List.getElem?_range hi]

lemma chainSprings_getD_middle (i : Nat) (h1 : 1 ≤ i) (h2 : i < N_MASSES) :
    chainSprings.getD i default = middleSpring i := by
  obtain ⟨k, rfl⟩ : ∃ k, i = k + 1 := ⟨i - 1, by omega⟩
  have hk : k < N_MASSES - 1 := by omega
  have hlen : ((List.range (N_MASSES - 1)).map (fun j => middleSpring (j + 1))).length
      = N_MASSES - 1 := by simp
  simp only [chainSprings, List.cons_append, List.getD_cons_succ]
  rw [List.getD_eq_getElem?_getD, List.getElem?_append_left (by simpa [hlen] using hk),
    List.getElem?_map, List.getElem?_range hk]
  rfl

lemma space_step_proj (dyn : SimState → List BodyState) (s : SimState) :
    (space_step dyn s).time_accum = s.time_accum ∧
    (space_step dyn s).impulse_applied = s.impulse_applied ∧
    (space_step dyn s).impulse_time_s = s.impulse_time_s ∧
    (space_step dyn s).anchor_lift_m = s.anchor_lift_m ∧
    (space_step dyn s).damping = s.damping ∧
    (space_step dyn s).space_damping = s.space_damping ∧
    (space_step dyn s).gravity_index = s.gravity_index ∧
    (space_step dyn s).space_gravity = s.space_gravity ∧
    (space_step dyn s).left_anchor_vel = s.left_anchor_vel ∧
    (space_step dyn s).right_anchor_pos = s.right_anchor_pos := by
  refine ⟨rfl, rfl, rfl, rfl, rfl, rfl, rfl, rfl, rfl, rfl⟩

lemma space_step_left_anchor_pos (dyn : SimState → List BodyState) (s : SimState)
    (hv : s.left_anchor_vel = (0, 0)) :
    (space_step dyn s).left_anchor_pos = s.left_anchor_pos := by
  simp [space_step, hv]

lemma space_steps_proj (dyn : SimState → List BodyState) (n : Nat) (s : SimState) :
    (space_steps dyn n s).time_accum = s.time_accum ∧
    (space_steps dyn n s).impulse_applied = s.impulse_applied ∧
    (space_steps dyn n s).impulse_time_s = s.impulse_time_s ∧
    (space_steps dyn n s).anchor_lift_m = s.anchor_lift_m ∧
    (space_steps dyn n s).damping = s.damping ∧
    (space_steps dyn n s).space_damping = s.space_damping ∧
    (space_steps dyn n s).gravity_index = s.gravity_index ∧
    (space_steps dyn n s).space_gravity = s.space_gravity ∧
    (space_steps dyn n s).left_anchor_vel = s.left_anchor_vel ∧
    (space_steps dyn n s).right_anchor_pos = s.right_anchor_pos := by
  induction n generalizing s with
  | zero => exact ⟨rfl, rfl, rfl, rfl, rfl, rfl, rfl, rfl, rfl, rfl⟩
  | succ n ih =>
      simpa only [space_steps, space_step_proj] using ih (space_step dyn s)

lemma space_steps_left_anchor_pos (dyn : SimState → List BodyState) (n : Nat)
    (s : SimState) (hv : s.left_anchor_vel = (0, 0)) :
    (space_steps dyn n s).left_anchor_pos = s.left_anchor_pos := by
  induction n generalizing s with
  | zero => rfl
  | succ n ih =>
      have hv2 : (space_step dyn s).left_anchor_vel = (0, 0) := hv
      rw [space_steps, ih (space_step dyn s) hv2,
        space_step_left_anchor_pos dyn s hv]

lemma Inv_initState : Inv initState := by
  refine ⟨?_, ?_, ?_, rfl, rfl, ?_, ?_, ?_, ?_⟩ <;>
    norm_num [initState, build_chain, ANCHOR_LIFT_M, IMPULSE_TIME_S, SPACE_DAMPING]

lemma Inv_apply_impulse (s : SimState) (h : Inv s) :
    Inv (apply_first_spring_impulse s) := h

lemma Inv_reset_sim (s : SimState) (h : Inv s) : Inv (reset_sim s) := by
  obtain ⟨hd0, hd1, hgi, _, _, hl0, hl1, ht0, ht1⟩ := h
  exact ⟨hd0, hd1, hgi, rfl, rfl, hl0, hl1, ht0, ht1⟩

lemma Inv_process_key (k : Key) (s : SimState) (h : Inv s) :
    Inv (process_key k s) := by
  obtain ⟨hd0, hd1, hgi, hgv, hv, hl0, hl1, ht0, ht1⟩ := h
  cases k with
  | esc => exact ⟨hd0, hd1, hgi, hgv, hv, hl0, hl1, ht0, ht1⟩
  | g =>
      refine ⟨hd0, hd1, ?_, rfl, hv, hl0, hl1, ht0, ht1⟩
      exact Nat.mod_lt _ (by decide)
  | k1 =>
      refine ⟨le_max_left _ _, max_le (by norm_num) (by linarith), hgi, hgv, hv,
        hl0, hl1, ht0, ht1⟩
  | k2 =>
      refine ⟨le_min (by norm_num) (by linarith), le_trans (min_le_left _ _) (by norm_num),
        hgi, hgv, hv, hl0, hl1, ht0, ht1⟩
  | k3 =>
      exact ⟨hd0, hd1, hgi, hgv, hv, le_max_left _ _,
        max_le (by norm_num) (by linarith), ht0, ht1⟩
  | k4 =>
      exact ⟨hd0, hd1, hgi, hgv, hv, le_min (by norm_num) (by linarith),
        min_le_left _ _, ht0, ht1⟩
  | k5 =>
      exact ⟨hd0, hd1, hgi, hgv, hv, hl0, hl1, le_max_left _ _,
        max_le (by norm_num) (by linarith)⟩
  | k6 =>
      exact ⟨hd0, hd1, hgi, hgv, hv, hl0, hl1, le_min (by norm_num) (by linarith),
        min_le_left _ _⟩
  | i =>
      simp only [process_key]
      split
      · exact Inv_apply_impulse s ⟨hd0, hd1, hgi, hgv, hv, hl0, hl1, ht0, ht1⟩
      · exact ⟨hd0, hd1, hgi, hgv, hv, hl0, hl1, ht0, ht1⟩
  | r => exact Inv_reset_sim s ⟨hd0, hd1, hgi, hgv, hv, hl0, hl1, ht0, ht1⟩

lemma Inv_process_events (events : List Key) (s : SimState) (h : Inv s) :
    Inv (process_events events s) := by
  induction events generalizing s with
  | nil => exact h
  | cons k rest ih => exact ih (process_key k s) (Inv_process_key k s h)

lemma Inv_space_steps (dyn : SimState → List BodyState) (n : Nat) (s : SimState)
    (h : Inv s) : Inv (space_steps dyn n s) := by
  obtain ⟨p1, p2, p3, p4, p5, p6, p7, p8, p9, p10⟩ := space_steps_proj dyn n s
  simp only [Inv, p3, p4, p5, p7, p8, p9]
  exact h

lemma Inv_tick (dyn : SimState → List BodyState) (events : List Key) (s : SimState)
    (h : Inv s) : Inv (tick dyn events s) := by
  unfold tick
  apply Inv_space_steps
  have h1 : Inv (process_events events s) := Inv_process_events events s h
  dsimp only
  split
  · split
    · exact Inv_apply_impulse _ h1
    · exact h1
  · exact h1

lemma Reachable_Inv (s : SimState) (h : Reachable s) : Inv s := by
  induction h with
  | init => exact Inv_initState
  | step dyn events s hs ih => exact Inv_tick dyn events s ih

lemma space_steps_time_accum (dyn : SimState → List BodyState) (n : Nat) (s : SimState) :
    (space_steps dyn n s).time_accum = s.time_accum :=
  (space_steps_proj dyn n s).1

lemma space_steps_impulse_applied (dyn : SimState → List BodyState) (n : Nat) (s : SimState) :
    (space_steps dyn n s).impulse_applied = s.impulse_applied :=
  (space_steps_proj dyn n s).2.1

/-- C1: the freshly built chain has `N_MASSES = 150` bodies and `N_MASSES + 1`
springs; spring 0 connects the left kinematic anchor to body 0, spring `i` for
`1 ≤ i < N_MASSES` connects body `i - 1` to body `i`, and spring `N_MASSES`
connects body `N_MASSES - 1` to the static wall anchor. -/
theorem c1_chain_topology (i : Nat) (h1 : 1 ≤ i) (h2 : i < N_MASSES) :
    initState.bodies.length = N_MASSES ∧
    initState.springs.length = N_MASSES + 1 ∧
    (initState.springs.getD 0 default).a = Endpoint.leftAnchor ∧
    (initState.springs.getD 0 default).b = Endpoint.massBody 0 ∧
    (initState.springs.getD i default).a = Endpoint.massBody (i - 1) ∧
    (initState.springs.getD i default).b = Endpoint.massBody i ∧
    (initState.springs.getD N_MASSES default).a = Endpoint.massBody (N_MASSES - 1) ∧
    (initState.springs.getD N_MASSES default).b = Endpoint.wallStatic := by
  have hs : initState.springs = chainSprings := rfl
  have hm := chainSprings_getD_middle i h1 h2
  refine ⟨chainBodies_length, chainSprings_length, rfl, rfl, ?_, ?_, ?_, ?_⟩
  · rw [hs, hm]; rfl
  · rw [hs, hm]; rfl
  · rfl
  · rfl

/-- Witness for C1 at the concrete spring index 7. -/
theorem c1_witness :
    initState.bodies.length = N_MASSES ∧
    initState.springs.length = N_MASSES + 1 ∧
    (initState.springs.getD 0 default).a = Endpoint.leftAnchor ∧
    (initState.springs.getD 0 default).b = Endpoint.massBody 0 ∧
    (initState.springs.getD 7 default).a = Endpoint.massBody (7 - 1) ∧
    (initState.springs.getD 7 default).b = Endpoint.massBody 7 ∧
    (initState.springs.getD N_MASSES default).a = Endpoint.massBody (N_MASSES - 1) ∧
    (initState.springs.getD N_MASSES default).b = Endpoint.wallStatic :=
  c1_chain_topology 7 (by decide) (by decide)

/-- C2: from the pending state, the immediate-impulse key moves the left
anchor down-screen (up) by exactly `anchor_lift_m * PIXELS_PER_METER` in y,
leaves x unchanged, and sets `impulse_applied`. -/
theorem c2_trigger_moves_anchor (s : SimState) (h : s.impulse_applied = false) :
    (process_key Key.i s).left_anchor_pos.1 = s.left_anchor_pos.1 ∧
    (process_key Key.i s).left_anchor_pos.2 =
      s.left_anchor_pos.2 - s.anchor_lift_m * PIXELS_PER_METER ∧
    (process_key Key.i s).impulse_applied = true := by
  simp [process_key, h, apply_first_spring_impulse, m_to_px]

/-- Witness for C2 at the freshly constructed state. -/
theorem c2_witness :
    initState.impulse_applied = false ∧
    ((process_key Key.i initState).left_anchor_pos.1 = initState.left_anchor_pos.1 ∧
     (process_key Key.i initState).left_anchor_pos.2 =
       initState.left_anchor_pos.2 - initState.anchor_lift_m * PIXELS_PER_METER ∧
     (process_key Key.i initState).impulse_applied = true) :=
  ⟨rfl, c2_trigger_moves_anchor initState rfl⟩

/-- C3: once the impulse has been applied, the immediate-impulse key is a
strict no-op on the whole simulation state, and a reset re-arms the impulse. -/
theorem c3_trigger_noop_after_applied (s : SimState) (h : s.impulse_applied = true) :
    process_key Key.i s = s ∧ (process_key Key.r s).impulse_applied = false := by
  refine ⟨?_, rfl⟩
  simp [process_key, h]

/-- Witness for C3: after one trigger from the fresh state, a second trigger
changes nothing. -/
theorem c3_witness :
    (process_key Key.i initState).impulse_applied = true ∧
    (process_key Key.i (process_key Key.i initState) = process_key Key.i initState ∧
     (process_key Key.r (process_key Key.i initState)).impulse_applied = false) :=
  ⟨rfl, c3_trigger_noop_after_applied (process_key Key.i initState) rfl⟩

/-- C5: `reset_sim` rebuilds the chain from scratch for any prior state: the
construction-time bodies (positions and zero velocities) and springs, the left
anchor back at its base position, a disarmed accumulator and a re-armed
impulse. -/
theorem c5_reset_restores (s : SimState) (i : Nat) (hi : i < N_MASSES) :
    (reset_sim s).bodies = chainBodies ∧
    (reset_sim s).springs = chainSprings ∧
    (reset_sim s).bodies.length = N_MASSES ∧
    (reset_sim s).springs.length = N_MASSES + 1 ∧
    ((reset_sim s).bodies.getD i default).position =
      (start_x + ((i : ℚ) + 1) * span_px, baseline_y) ∧
    ((reset_sim s).bodies.getD i default).velocity = (0, 0) ∧
    (reset_sim s).left_anchor_pos = (reset_sim s).left_anchor_base ∧
    (reset_sim s).left_anchor_pos = (start_x, baseline_y) ∧
    (reset_sim s).impulse_applied = false ∧
    (reset_sim s).time_accum = 0 := by
  have hb : (reset_sim s).bodies = chainBodies := rfl
  refine ⟨rfl, rfl, ?_, ?_, ?_, ?_, rfl, rfl, rfl, rfl⟩
  · rw [hb, chainBodies_length]
  · exact chainSprings_length
  · rw [hb, chainBodies_getD i hi]; rfl
  · rw [hb, chainBodies_getD i hi]; rfl

/-- Witness for C5 after a scrambled history (gravity toggled, impulse fired,
several ticks), at body index 3. -/
theorem c5_witness :
    (reset_sim (tick dynId [Key.g, Key.i] initState)).bodies = chainBodies ∧
    (reset_sim (tick dynId [Key.g, Key.i] initState)).springs = chainSprings ∧
    (reset_sim (tick dynId [Key.g, Key.i] initState)).bodies.length = N_MASSES ∧
    (reset_sim (tick dynId [Key.g, Key.i] initState)).springs.length = N_MASSES + 1 ∧
    ((reset_sim (tick dynId [Key.g, Key.i] initState)).bodies.getD 3 default).position =
      (start_x + ((3 : ℚ) + 1) * span_px, baseline_y) ∧
    ((reset_sim (tick dynId [Key.g, Key.i] initState)).bodies.getD 3 default).velocity = (0, 0) ∧
    (reset_sim (tick dynId [Key.g, Key.i] initState)).left_anchor_pos =
      (reset_sim (tick dynId [Key.g, Key.i] initState)).left_anchor_base ∧
    (reset_sim (tick dynId [Key.g, Key.i] initState)).left_anchor_pos =
      (start_x, baseline_y) ∧
    (reset_sim (tick dynId [Key.g, Key.i] initState)).impulse_applied = false ∧
    (reset_sim (tick dynId [Key.g, Key.i] initState)).time_accum = 0 :=
  c5_reset_restores (tick dynId [Key.g, Key.i] initState) 3 (by decide)

/-- C6: a physics step never moves either anchor (for any behaviour of the
external solver, as long as the kinematic anchor has its construction velocity
zero), and no key command other than the immediate impulse and the reset ever
changes the left anchor position. -/
theorem c6_anchors_immune (dyn : SimState → List BodyState) (k : Key) (s : SimState)
    (hv : s.left_anchor_vel = (0, 0)) (hki : k ≠ Key.i) (hkr : k ≠ Key.r) :
    (space_step dyn s).left_anchor_pos = s.left_anchor_pos ∧
    (space_step dyn s).right_anchor_pos = s.right_anchor_pos ∧
    (process_key k s).left_anchor_pos = s.left_anchor_pos := by
  refine ⟨space_step_left_anchor_pos dyn s hv, rfl, ?_⟩
  cases k <;> first | rfl | exact absurd rfl hki | exact absurd rfl hkr

/-- Witness for C6 with the trivial solver, the gravity key, and the fresh
state. -/
theorem c6_witness :
    initState.left_anchor_vel = (0, 0) ∧
    ((space_step dynId initState).left_anchor_pos = initState.left_anchor_pos ∧
     (space_step dynId initState).right_anchor_pos = initState.right_anchor_pos ∧
     (process_key Key.g initState).left_anchor_pos = initState.left_anchor_pos) :=
  ⟨rfl, c6_anchors_immune dynId Key.g initState rfl (by decide) (by decide)⟩

/-- C4: in an untouched run (no key events), a tick whose accumulated elapsed
time (after adding `dt * physics_steps_per_frame`) is still below the trigger
time leaves the left anchor and the pending flag alone; the first tick whose
accumulated time reaches the trigger time lifts the anchor and sets the flag;
and every tick after that leaves the anchor where it is and the flag set, so
the lift fires exactly once before a reset. -/
theorem c4_timed_trigger_once (dyn : SimState → List BodyState) (s : SimState)
    (hv : s.left_anchor_vel = (0, 0)) :
    (s.impulse_applied = false →
      s.time_accum + dt * (physics_steps_per_frame : ℚ) < s.impulse_time_s →
      (tick dyn [] s).left_anchor_pos = s.left_anchor_pos ∧
      (tick dyn [] s).impulse_applied = false ∧
      (tick dyn [] s).time_accum = s.time_accum + dt * (physics_steps_per_frame : ℚ)) ∧
    (s.impulse_applied = false →
      s.impulse_time_s ≤ s.time_accum + dt * (physics_steps_per_frame : ℚ) →
      (tick dyn [] s).left_anchor_pos.1 = s.left_anchor_pos.1 ∧
      (tick dyn [] s).left_anchor_pos.2 = s.left_anchor_pos.2 - m_to_px s.anchor_lift_m ∧
      (tick dyn [] s).impulse_applied = true) ∧
    (s.impulse_applied = true →
      (tick dyn [] s).left_anchor_pos = s.left_anchor_pos ∧
      (tick dyn [] s).impulse_applied = true) := by
  refine ⟨?_, ?_, ?_⟩
  · intro h hlt
    have hc : ¬ s.impulse_time_s ≤ s.time_accum + dt * (physics_steps_per_frame : ℚ) :=
      not_le.mpr hlt
    simp [tick, process_events, h, hc, space_steps_left_anchor_pos,
      space_steps_impulse_applied, space_steps_time_accum, hv]
  · intro h hge
    simp [tick, process_events, h, hge, space_steps_left_anchor_pos,
      space_steps_impulse_applied, apply_first_spring_impulse, hv]
  · intro h
    simp [tick, process_events, h, space_steps_left_anchor_pos,
      space_steps_impulse_applied, hv]

/-- Witness for C4: the first untouched tick from the fresh state (elapsed
1/60 s, below the 0.25 s trigger) leaves the anchor alone. -/
theorem c4_witness :
    (tick dynId [] initState).left_anchor_pos = initState.left_anchor_pos ∧
    (tick dynId [] initState).impulse_applied = false ∧
    (tick dynId [] initState).time_accum =
      initState.time_accum + dt * (physics_steps_per_frame : ℚ) :=
  (c4_timed_trigger_once dynId initState rfl).1 rfl
    (by norm_num [initState, build_chain, IMPULSE_TIME_S, dt, physics_steps_per_frame])

/-- C7: each live parameter key clamps: the damping keys keep the damping
factor (and the space copy of it) in `[0, 1)`, the lift keys keep the lift
amount in `[0, 2]` m, and the trigger-time keys keep the trigger time in
`[0, 5]` s, from any reachable state. -/
theorem c7_parameter_clamping (s : SimState) (h : Reachable s) :
    (0 ≤ (process_key Key.k1 s).damping ∧ (process_key Key.k1 s).damping < 1 ∧
      (process_key Key.k1 s).space_damping = (process_key Key.k1 s).damping) ∧
    (0 ≤ (process_key Key.k2 s).damping ∧ (process_key Key.k2 s).damping < 1 ∧
      (process_key Key.k2 s).space_damping = (process_key Key.k2 s).damping) ∧
    (0 ≤ (process_key Key.k3 s).anchor_lift_m ∧ (process_key Key.k3 s).anchor_lift_m ≤ 2) ∧
    (0 ≤ (process_key Key.k4 s).anchor_lift_m ∧ (process_key Key.k4 s).anchor_lift_m ≤ 2) ∧
    (0 ≤ (process_key Key.k5 s).impulse_time_s ∧ (process_key Key.k5 s).impulse_time_s ≤ 5) ∧
    (0 ≤ (process_key Key.k6 s).impulse_time_s ∧ (process_key Key.k6 s).impulse_time_s ≤ 5) := by
  obtain ⟨hd0, hd1, _, _, _, hl0, hl1, ht0, ht1⟩ := Reachable_Inv s h
  refine ⟨⟨le_max_left _ _, max_lt (by norm_num) (by linarith), rfl⟩,
    ⟨le_min (by norm_num) (by linarith),
      lt_of_le_of_lt (min_le_left _ _) (by norm_num), rfl⟩,
    ⟨le_max_left _ _, max_le (by norm_num) (by linarith)⟩,
    ⟨le_min (by norm_num) (by linarith), min_le_left _ _⟩,
    ⟨le_max_left _ _, max_le (by norm_num) (by linarith)⟩,
    ⟨le_min (by norm_num) (by linarith), min_le_left _ _⟩⟩

/-- Witness for C7 at the freshly constructed (reachable) state. -/
theorem c7_witness :
    (0 ≤ (process_key Key.k1 initState).damping ∧
      (process_key Key.k1 initState).damping < 1 ∧
      (process_key Key.k1 initState).space_damping = (process_key Key.k1 initState).damping) ∧
    (0 ≤ (process_key Key.k2 initState).damping ∧
      (process_key Key.k2 initState).damping < 1 ∧
      (process_key Key.k2 initState).space_damping = (process_key Key.k2 initState).damping) ∧
    (0 ≤ (process_key Key.k3 initState).anchor_lift_m ∧
      (process_key Key.k3 initState).anchor_lift_m ≤ 2) ∧
    (0 ≤ (process_key Key.k4 initState).anchor_lift_m ∧
      (process_key Key.k4 initState).anchor_lift_m ≤ 2) ∧
    (0 ≤ (process_key Key.k5 initState).impulse_time_s ∧
      (process_key Key.k5 initState).impulse_time_s ≤ 5) ∧
    (0 ≤ (process_key Key.k6 initState).impulse_time_s ∧
      (process_key Key.k6 initState).impulse_time_s ≤ 5) :=
  c7_parameter_clamping initState Reachable.init

/-- C8 as stated is false: a tick taken after the impulse has fired does not
advance the elapsed-time accumulator at all, so the accumulator does not grow
by `physics_steps_per_frame * dt` on every tick of the run. -/
theorem c8_counterexample :
    (process_key Key.i initState).impulse_applied = true ∧
    (tick dynId [] (process_key Key.i initState)).time_accum =
      (process_key Key.i initState).time_accum ∧
    (tick dynId [] (process_key Key.i initState)).time_accum ≠
      (process_key Key.i initState).time_accum + dt * (physics_steps_per_frame : ℚ) := by
  refine ⟨rfl, rfl, ?_⟩
  have h1 : (tick dynId [] (process_key Key.i initState)).time_accum = 0 := rfl
  have h2 : (process_key Key.i initState).time_accum = 0 := rfl
  rw [h1, h2]
  norm_num [dt, physics_steps_per_frame]

/-- C8, amended: a tick without key events advances the accumulator by
`dt * physics_steps_per_frame` while the impulse is still pending, and leaves
it unchanged once the impulse has been applied. -/
theorem c8_time_accumulation (dyn : SimState → List BodyState) (s : SimState) :
    (s.impulse_applied = false →
      (tick dyn [] s).time_accum = s.time_accum + dt * (physics_steps_per_frame : ℚ)) ∧
    (s.impulse_applied = true → (tick dyn [] s).time_accum = s.time_accum) := by
  constructor
  · intro h
    by_cases hge : s.impulse_time_s ≤ s.time_accum + dt * (physics_steps_per_frame : ℚ)
    · simp [tick, process_events, h, hge, space_steps_time_accum,
        apply_first_spring_impulse]
    · simp [tick, process_events, h, hge, space_steps_time_accum]
  · intro h
    simp [tick, process_events, h, space_steps_time_accum]

/-- Witness for C8 (amended): the first untouched tick advances the
accumulator from 0 to 1/60, and a tick after the manual trigger freezes it. -/
theorem c8_witness :
    (tick dynId [] initState).time_accum =
      initState.time_accum + dt * (physics_steps_per_frame : ℚ) ∧
    (tick dynId [] (process_key Key.i initState)).time_accum =
      (process_key Key.i initState).time_accum :=
  ⟨(c8_time_accumulation dynId initState).1 rfl,
   (c8_time_accumulation dynId (process_key Key.i initState)).2 rfl⟩

/-- C10: in every reachable state the space gravity is one of the two presets;
the gravity key genuinely toggles (the vector changes, staying a preset), and
a reset keeps the currently selected preset and its index. -/
theorem c10_gravity_presets (s : SimState) (h : Reachable s) :
    (s.space_gravity = (0, 0) ∨
      s.space_gravity = (0, (981 / 100) * PIXELS_PER_METER)) ∧
    ((process_key Key.g s).space_gravity = (0, 0) ∨
      (process_key Key.g s).space_gravity = (0, (981 / 100) * PIXELS_PER_METER)) ∧
    (process_key Key.g s).space_gravity ≠ s.space_gravity ∧
    (reset_sim s).space_gravity = s.space_gravity ∧
    (reset_sim s).gravity_index = s.gravity_index := by
  obtain ⟨_, _, hgi, hgv, _, _, _, _, _⟩ := Reachable_Inv s h
  have hreset : (reset_sim s).space_gravity = gravity_presets.getD s.gravity_index (0, 0) := rfl
  have hg : (process_key Key.g s).space_gravity =
      gravity_presets.getD ((s.gravity_index + 1) % gravity_presets.length) (0, 0) := rfl
  have hcase : s.gravity_index = 0 ∨ s.gravity_index = 1 := by omega
  rcases hcase with h0 | h0 <;>
    rw [h0] at hgv hg <;>
    refine ⟨?_, ?_, ?_, ?_, rfl⟩ <;>
    simp [hgv, hg, hreset, h0, gravity_presets, PIXELS_PER_METER, Prod.ext_iff]

/-- Witness for C10 at the freshly constructed (reachable) state. -/
theorem c10_witness :
    (initState.space_gravity = (0, 0) ∨
      initState.space_gravity = (0, (981 / 100) * PIXELS_PER_METER)) ∧
    ((process_key Key.g initState).space_gravity = (0, 0) ∨
      (process_key Key.g initState).space_gravity = (0, (981 / 100) * PIXELS_PER_METER)) ∧
    (process_key Key.g initState).space_gravity ≠ initState.space_gravity ∧
    (reset_sim initState).space_gravity = initState.space_gravity ∧
    (reset_sim initState).gravity_index = initState.gravity_index :=
  c10_gravity_presets initState Reachable.init

lemma initState_bodies_getD (i : Nat) (hi : i < N_MASSES) :
    initState.bodies.getD i default = mkMass i := by
  have hb : initState.bodies = chainBodies := rfl
  rw [hb]
  exact chainBodies_getD i hi

lemma initState_bodies_getElem (i : Nat) (hi : i < N_MASSES) :
    initState.bodies[i]? = some (mkMass i) := by
  have hb : initState.bodies = chainBodies := rfl
  rw [hb]
  simp [chainBodies, List.getElem?_map, List.getElem?_range hi]

lemma span_first : span_vec initState firstSpring = (m_to_px LV_M, 0) := by
  have hb := initState_bodies_getElem 0 (by norm_num [N_MASSES])
  have hl : initState.left_anchor_pos = (start_x, baseline_y) := rfl
  norm_num [span_vec, world_anchor, firstSpring, hb, hl, mkMass, span_px, m_to_px,
    start_x, baseline_y, LV_M, PIXELS_PER_METER, HEIGHT]

lemma span_last : span_vec initState lastSpring = (m_to_px LV_M, 0) := by
  have hb := initState_bodies_getElem 149 (by norm_num [N_MASSES])
  norm_num [span_vec, world_anchor, lastSpring, hb, mkMass, span_px, m_to_px,
    wall_x, start_x, baseline_y, LV_M, PIXELS_PER_METER, HEIGHT, N_MASSES]

lemma span_middle (j : Nat) (h1 : 1 ≤ j) (h2 : j < N_MASSES) :
    span_vec initState (middleSpring j) = (m_to_px LV_M, 0) := by
  simp only [span_vec, world_anchor, middleSpring]
  rw [initState_bodies_getD (j - 1) (by omega), initState_bodies_getD j h2]
  simp only [mkMass, span_px, Prod.mk.injEq]
  rw [Nat.cast_sub h1]
  constructor <;> ring

lemma chainSprings_span (j : Nat) (hj : j < N_MASSES + 1) :
    span_vec initState (chainSprings.getD j default) = (m_to_px LV_M, 0) ∧
    (chainSprings.getD j default).rest_length = m_to_px L0_M := by
  rcases Nat.eq_zero_or_pos j with h0 | h1
  · subst h0
    exact ⟨span_first, rfl⟩
  · rcases Nat.lt_or_ge j N_MASSES with hm | hN
    · rw [chainSprings_getD_middle j h1 hm]
      exact ⟨span_middle j h1 hm, rfl⟩
    · have hj2 : j = N_MASSES := by omega
      subst hj2
      have he : chainSprings.getD N_MASSES default = lastSpring := by rfl
      rw [he]
      exact ⟨span_last, rfl⟩

/-- C9: immediately after construction the left anchor sits at
`(start_x, baseline_y)`, body `i` at `start_x + (i+1) * span`, and the wall at
`start_x + (N+1) * span`, all at the same height; every one of the `N+1`
springs spans exactly the pre-tension spacing `LV_M` (0.12 m = 6 px) while its
rest length is `L0_M` (0.1 m = 5 px), so every spring starts with a positive
stretch of exactly 0.02 m. -/
theorem c9_pretension_geometry (i j : Nat) (hi : i < N_MASSES) (hj : j < N_MASSES + 1) :
    initState.left_anchor_pos = (start_x, baseline_y) ∧
    (initState.bodies.getD i default).position =
      (start_x + ((i : ℚ) + 1) * m_to_px LV_M, baseline_y) ∧
    initState.right_anchor_pos =
      (start_x + ((N_MASSES : ℚ) + 1) * m_to_px LV_M, baseline_y) ∧
    span_vec initState (initState.springs.getD j default) = (m_to_px LV_M, 0) ∧
    (initState.springs.getD j default).rest_length = m_to_px L0_M ∧
    m_to_px LV_M = 6 ∧
    m_to_px L0_M = 5 ∧
    LV_M - L0_M = 2 / 100 ∧
    (0 : ℚ) < m_to_px LV_M - m_to_px L0_M := by
  have hsp : initState.springs = chainSprings := rfl
  refine ⟨rfl, ?_, rfl, ?_, ?_, ?_, ?_, ?_, ?_⟩
  · rw [initState_bodies_getD i hi]; rfl
  · rw [hsp]; exact (chainSprings_span j hj).1
  · rw [hsp]; exact (chainSprings_span j hj).2
  · norm_num [m_to_px, LV_M, PIXELS_PER_METER]
  · norm_num [m_to_px, L0_M, PIXELS_PER_METER]
  · norm_num [LV_M, L0_M]
  · norm_num [m_to_px, LV_M, L0_M, PIXELS_PER_METER]

/-- Witness for C9 at body index 4 and spring index 10. -/
theorem c9_witness :
    initState.left_anchor_pos = (start_x, baseline_y) ∧
    (initState.bodies.getD 4 default).position =
      (start_x + ((4 : ℚ) + 1) * m_to_px LV_M, baseline_y) ∧
    initState.right_anchor_pos =
      (start_x + ((N_MASSES : ℚ) + 1) * m_to_px LV_M, baseline_y) ∧
    span_vec initState (initState.springs.getD 10 default) = (m_to_px LV_M, 0) ∧
    (initState.springs.getD 10 default).rest_length = m_to_px L0_M ∧
    m_to_px LV_M = 6 ∧
    m_to_px L0_M = 5 ∧
    LV_M - L0_M = 2 / 100 ∧
    (0 : ℚ) < m_to_px LV_M - m_to_px L0_M :=
  c9_pretension_geometry 4 10 (by norm_num [N_MASSES]) (by norm_num [N_MASSES])

end FederMasseKette
